import Mathlib

/-!
# Verification of the Clarion-AI data-conversion scripts

Shallow embedding of the two utility scripts of the repository:

* `scripts/convert_xpt.py` — loads a SAS XPORT table into an in-memory
  column-typed table (a pandas `DataFrame`), optionally prints a population
  percentile report for a fixed mapping of CBC variables, and writes a CSV
  and a records-oriented JSON export.
* `scripts/create_fpdf2_sample.py` — reads the JSON export, picks the first
  record whose four mandatory CBC fields are all truthy, and renders a fixed
  PDF template, substituting hard-coded defaults for missing optional fields.

Numeric cell values are modelled as exact rationals (`ℚ`): the scripts'
arithmetic — linear-interpolation quantiles and rounding to 4 decimal
places — is exact rational arithmetic, and no claim depends on binary
floating-point representation effects.
-/

namespace Clarion

/-! ## Data model: the in-memory table

A pandas `DataFrame` is an ordered sequence of named columns; each cell is a
number, a string, or missing (`NaN`). -/

/-- A single cell of the table: numeric, text, or missing (`NaN`). -/
inductive Cell where
  | num (x : ℚ)
  | str (s : String)
  | missing
deriving DecidableEq, Repr

/-- A named column: `df[name]` is the sequence of its cells. -/
structure Col where
  name : String
  cells : List Cell
deriving DecidableEq, Repr

/-- The in-memory table (`DataFrame`): an ordered sequence of named columns. -/
structure Table where
  cols : List Col
deriving DecidableEq, Repr

/-- `len(df)`: the row count, read off the first column (0 when there are no
columns). -/
def Table.nrows (t : Table) : ℕ :=
  match t.cols with
  | [] => 0
  | c :: _ => c.cells.length

/-- Well-formedness: every column has exactly `nrows` cells (the `DataFrame`
invariant that all columns share one length). -/
def Table.wf (t : Table) : Prop :=
  ∀ c ∈ t.cols, c.cells.length = t.nrows

/-- `df[var]` by name: the first column called `name`, if any. -/
def Table.findCol (t : Table) (name : String) : Option Col :=
  t.cols.find? (fun c => c.name == name)

/-- `df[var].dropna()`: the non-missing numeric values of a column, in order. -/
def dropna (cells : List Cell) : List ℚ :=
  cells.filterMap fun c =>
    match c with
    | Cell.num x => some x
    | _ => none

/-! ## Quantile computation

`pandas.Series.quantile` with the default `interpolation="linear"`: sort the
values; for quantile `q` over `n` sorted values take the fractional index
`h = q·(n−1)` and interpolate linearly between the order statistics at
`⌊h⌋` and `⌈h⌉`. -/

/-- The values of a column sorted ascending (pandas sorts internally before
interpolating). -/
def sortQ (xs : List ℚ) : List ℚ :=
  xs.insertionSort (· ≤ ·)

/-- Linear interpolation at fractional index `h` into an (already sorted)
list `s`: `s[⌊h⌋] + (h − ⌊h⌋)·(s[⌈h⌉] − s[⌊h⌋])`. -/
def interpAt (s : List ℚ) (h : ℚ) : ℚ :=
  let lo := (⌊h⌋).toNat
  let hi := (⌈h⌉).toNat
  let a := s.getD lo 0
  let b := s.getD hi 0
  a + (h - (lo : ℚ)) * (b - a)

/-- `Series.quantile(q)` (linear interpolation): sort, then interpolate at
index `q·(n−1)`. -/
def quantile (xs : List ℚ) (q : ℚ) : ℚ :=
  interpAt (sortQ xs) (q * ((xs.length : ℚ) - 1))

/-! ## The percentile reporter (`show_reference_ranges`) -/

/-- The fixed NHANES-variable → display-label mapping of
`show_reference_ranges`. -/
def nhanes_to_name : List (String × String) :=
  [("LBXWBCSI", "WBC (10^3/mcL)"),
   ("LBXRBCSI", "RBC (M/mcL)"),
   ("LBXHGB",   "Hemoglobin (g/dL)"),
   ("LBXHCT",   "Hematocrit (%)"),
   ("LBXMCVSI", "MCV (fL)"),
   ("LBXMC",    "MCH (pg)"),
   ("LBXMCHSI", "MCHC (g/dL)"),
   ("LBXRDW",   "RDW (%)"),
   ("LBXPLTSI", "Platelets (10^3/mcL)"),
   ("LBXMPSI",  "MPV (fL)"),
   ("LBXNRBC",  "NRBC (/100 WBC)")]

/-- One printed line of the percentile report: the display label and the five
quantiles `{0.025, 0.25, 0.5, 0.75, 0.975}` of the column. -/
structure RangeRow where
  label : String
  p025 : ℚ
  p25 : ℚ
  p50 : ℚ
  p75 : ℚ
  p975 : ℚ
deriving DecidableEq, Repr

/-- The per-variable body of the loop in `show_reference_ranges`: skip the
variable when the column is absent (`var not in df.columns`) or has no
non-missing value (`len(col) == 0`); otherwise report the five quantiles of
`df[var].dropna()`. -/
def rangeRowOf (t : Table) (var : String) (name : String) : Option RangeRow :=
  match t.findCol var with
  | none => none
  | some c =>
    let xs := dropna c.cells
    if xs.length = 0 then none
    else some ⟨name, quantile xs (25/1000), quantile xs (25/100),
               quantile xs (50/100), quantile xs (75/100), quantile xs (975/1000)⟩

/-- `show_reference_ranges(df)`: the sequence of printed report lines, in the
order of the fixed mapping. -/
def show_reference_ranges (t : Table) : List RangeRow :=
  nhanes_to_name.filterMap fun p => rangeRowOf t p.1 p.2

/-! ## The exporter (`save_outputs`)

`save_outputs` writes `df.to_csv(csv_path, index=False, float_format="%.4f")`
and `df.round(4).to_json(json_path, orient="records", indent=2)`. -/

/-- Rounding to 4 decimal places, the effect of both `"%.4f"` formatting and
`df.round(4)` in exact rational arithmetic. -/
def round4 (x : ℚ) : ℚ :=
  ((round (x * 10000) : ℤ) : ℚ) / 10000

/-- One field of a CSV data line. A numeric cell is written with `"%.4f"`;
the printed decimal string is fully determined by the integer
`round(x·10⁴)` (4 fractional digits at fixed scale), which is how the field
is modelled. A missing cell is an empty field; a string cell is the string
itself. -/
inductive CsvField where
  | numF (scaled : ℤ)
  | strF (s : String)
  | emptyF
deriving DecidableEq, Repr

/-- Render one cell as a CSV field (`to_csv` with `float_format="%.4f"`). -/
def csvFieldOfCell : Cell → CsvField
  | Cell.num x => CsvField.numF (round (x * 10000))
  | Cell.str s => CsvField.strF s
  | Cell.missing => CsvField.emptyF

/-- Re-parse a CSV field: the decimal string rendered from `scaled` with 4
fractional digits denotes exactly `scaled / 10⁴`. -/
def parseCsvField : CsvField → Cell
  | CsvField.numF z => Cell.num ((z : ℚ) / 10000)
  | CsvField.strF s => Cell.str s
  | CsvField.emptyF => Cell.missing

/-- The CSV document: one header line of column names, then the data lines. -/
structure CsvDoc where
  header : List String
  rows : List (List CsvField)
deriving DecidableEq, Repr

/-- Logical row `i` of the table: cell `i` of each column, in column order. -/
def Table.rowCells (t : Table) (i : ℕ) : List Cell :=
  t.cols.map fun c => c.cells.getD i Cell.missing

/-- `df.to_csv(path, index=False, float_format="%.4f")`: the header line of
column names followed by one line per row, in table order. -/
def export_csv (t : Table) : CsvDoc :=
  ⟨t.cols.map Col.name,
   (List.range t.nrows).map fun i => (t.rowCells i).map csvFieldOfCell⟩

/-- A JSON value in the records export: a number, a string, or `null`. -/
inductive JVal where
  | jnum (x : ℚ)
  | jstr (s : String)
  | jnull
deriving DecidableEq, Repr

/-- A cell as a JSON value (missing → `null`). -/
def jvalOfCell : Cell → JVal
  | Cell.num x => JVal.jnum x
  | Cell.str s => JVal.jstr s
  | Cell.missing => JVal.jnull

/-- Rounding of one cell under `df.round(4)`: numeric cells are rounded,
strings and missing values are untouched. -/
def roundCell : Cell → Cell
  | Cell.num x => Cell.num (round4 x)
  | other => other

/-- `df.round(4)`: a new table with every numeric cell rounded to 4 decimal
places; the original table is untouched. -/
def Table.roundTable (t : Table) : Table :=
  ⟨t.cols.map fun c => ⟨c.name, c.cells.map roundCell⟩⟩

/-- One JSON record per row (`orient="records"`): each record maps every
column name to the row's value for that column, in table order. -/
def to_json_records (t : Table) : List (List (String × JVal)) :=
  (List.range t.nrows).map fun i =>
    t.cols.map fun c => (c.name, jvalOfCell (c.cells.getD i Cell.missing))

/-- The JSON export of `save_outputs`: `df.round(4).to_json(path,
orient="records", indent=2)`. -/
def export_json (t : Table) : List (List (String × JVal)) :=
  to_json_records t.roundTable

/-- `save_outputs(df, out_dir)`: the two documents that get written. -/
def save_outputs (t : Table) : CsvDoc × List (List (String × JVal)) :=
  (export_csv t, export_json t)

/-- The straight-line body of `main` after a successful load: print the
percentile report, write the two exports, and hand the (unchanged) table
back. -/
def run_pipeline (df : Table) :
    (List RangeRow × CsvDoc × List (List (String × JVal))) × Table :=
  ((show_reference_ranges df, (save_outputs df).1, (save_outputs df).2), df)

/-! ## The loader (`load_xpt`) and the CLI driver (`main`) -/

/-- What a run of `convert_xpt.py` finds in its environment: whether the
input path exists, what each of the two parsing strategies would produce for
the file's content (`none` = that parser raises), and whether the
`pyreadstat` module is importable. -/
structure LoadEnv where
  fileExists : Bool
  pandasResult : Option Table
  pyreadstatInstalled : Bool
  pyreadstatResult : Option Table
deriving DecidableEq, Repr

/-- The fatal outcomes of `load_xpt`, each reached by `sys.exit(1)`. -/
inductive LoadFailure where
  | notFound
  | importError
  | formatError
deriving DecidableEq, Repr

/-- `load_xpt(filepath)`: exit if the path is missing; otherwise try
`pd.read_sas` first and return its table on success; otherwise fall back to
`pyreadstat.read_xpt` (exiting if the module is absent); only when that also
fails surface the final format failure. -/
def load_xpt (env : LoadEnv) : Except LoadFailure Table :=
  if env.fileExists = false then
    Except.error LoadFailure.notFound
  else
    match env.pandasResult with
    | some df => Except.ok df
    | none =>
      if env.pyreadstatInstalled = false then
        Except.error LoadFailure.importError
      else
        match env.pyreadstatResult with
        | some df => Except.ok df
        | none => Except.error LoadFailure.formatError

/-- The download hint printed (to stderr) when the input file is missing. -/
def downloadHint : String :=
  "Download from: https://wwwn.cdc.gov/nchs/nhanes/2017-2018/CBC_J.XPT"

/-- The observable outcome of one run of the script: the process exit code
and the diagnostic messages printed on the failure paths. -/
structure RunOutcome where
  exitCode : ℕ
  diagnostics : List String
deriving DecidableEq, Repr

/-- `main()`: load (exiting with code 1 and a diagnostic on any load
failure), then report and export; falling off the end of `main` exits the
process with code 0. -/
def runMain (env : LoadEnv) : RunOutcome :=
  match load_xpt env with
  | Except.error LoadFailure.notFound =>
      ⟨1, ["ERROR: File not found", downloadHint]⟩
  | Except.error LoadFailure.importError =>
      ⟨1, ["ERROR: pyreadstat not installed. Run:  pip install pyreadstat"]⟩
  | Except.error LoadFailure.formatError =>
      ⟨1, ["ERROR: pyreadstat also failed"]⟩
  | Except.ok df =>
      let _ := run_pipeline df
      ⟨0, []⟩

/-! ## The PDF report script (`create_fpdf2_sample.py`)

It reads `CBC_J.json` — a list of records, each a mapping from column name
to JSON value — picks the first record whose four mandatory CBC fields are
all truthy, and renders a fixed list of test rows. -/

/-- One parsed JSON record: an ordered mapping from field name to value. -/
abbrev JRecord := List (String × JVal)

/-- `record.get(k)` without a default: the stored value when the key is
present (`None` → `jnull`), nothing when it is absent. -/
def JRecord.lookupVal (r : JRecord) (k : String) : Option JVal :=
  (r.find? fun p => p.1 == k).map Prod.snd

/-- Python truthiness of `record.get(k)`: false when the key is absent, the
value is `null`, the number is exactly `0.0`, or the string is empty. -/
def truthyGet (r : JRecord) (k : String) : Bool :=
  match r.lookupVal k with
  | some (JVal.jnum x) => decide (x ≠ 0)
  | some (JVal.jstr s) => decide (s ≠ "")
  | some JVal.jnull => false
  | none => false

/-- The four fields the selection loop requires. -/
def mandatoryKeys : List String :=
  ["LBXHGB", "LBXWBCSI", "LBXPLTSI", "LBXRBCSI"]

/-- The `if` of the selection loop: all four mandatory fields truthy. -/
def isComplete (r : JRecord) : Bool :=
  truthyGet r "LBXHGB" && truthyGet r "LBXWBCSI" &&
    truthyGet r "LBXPLTSI" && truthyGet r "LBXRBCSI"

/-- The selection loop: scan the array in order and keep the first complete
record, if any. -/
def selectRecord : List JRecord → Option JRecord
  | [] => none
  | r :: rs => if isComplete r then some r else selectRecord rs

/-- The exit code of the record-selection stage: `exit(1)` when no record
qualifies, otherwise the script goes on to render the PDF. -/
def sampleSelectionExit (data : List JRecord) : ℕ :=
  match selectRecord data with
  | none => 1
  | some _ => 0

/-- `sample_record.get(k, d)`: the stored value when the key is present
(even when that value is `null`), the default `d` only when it is absent. -/
def JRecord.getD (r : JRecord) (k : String) (d : JVal) : JVal :=
  match r.lookupVal k with
  | some v => v
  | none => d

/-- One row of the rendered CBC panel: test name, the value the template
reads from the record (`none` models a bare `record[k]` lookup that would
raise `KeyError`), the unit, and the printed reference range. -/
structure TestRow where
  name : String
  value : Option JVal
  unit : String
  range : String
deriving DecidableEq, Repr

/-- The fixed base `tests` list of the template: four mandatory rows read
with `record[k]`, five optional rows read with `record.get(k, default)`. -/
def baseTests (r : JRecord) : List TestRow :=
  [⟨"Hemoglobin", r.lookupVal "LBXHGB", "g/dL", "13.5-17.5"⟩,
   ⟨"White Blood Cell Count", r.lookupVal "LBXWBCSI", "10^3/mcL", "4.5-11.0"⟩,
   ⟨"Platelet Count", r.lookupVal "LBXPLTSI", "10^3/mcL", "150-400"⟩,
   ⟨"Red Blood Cell Count", r.lookupVal "LBXRBCSI", "million cells/mcL", "4.5-5.9"⟩,
   ⟨"Hematocrit", some (r.getD "LBXHCT" (JVal.jnum 42)), "%", "38.0-50.0"⟩,
   ⟨"Mean Corpuscular Volume", some (r.getD "LBXMCVSI" (JVal.jnum 88)), "fL", "80-100"⟩,
   ⟨"Mean Corpuscular Hemoglobin", some (r.getD "LBXMC" (JVal.jnum 30)), "pg", "27-33"⟩,
   ⟨"MCHC", some (r.getD "LBXMCHSI" (JVal.jnum 34)), "g/dL", "32-36"⟩,
   ⟨"Red Cell Distribution Width", some (r.getD "LBXRDW" (JVal.jnum 13)), "%", "11.5-14.5"⟩]

/-- The differential rows, appended only when `LBXNEPCT` is truthy. -/
def diffTests (r : JRecord) : List TestRow :=
  if truthyGet r "LBXNEPCT" then
    [⟨"Neutrophils", r.lookupVal "LBXNEPCT", "%", "40-70"⟩,
     ⟨"Lymphocytes", r.lookupVal "LBXLYPCT", "%", "20-45"⟩,
     ⟨"Monocytes", some (r.getD "LBXMOPCT" (JVal.jnum 7)), "%", "2-10"⟩,
     ⟨"Eosinophils", some (r.getD "LBXEOPCT" (JVal.jnum 2)), "%", "0-6"⟩,
     ⟨"Basophils", some (r.getD "LBXBAPCT" (JVal.jnum (1/2))), "%", "0-2"⟩]
  else []

/-- The absolute-count rows, appended only when `LBDNENO` is truthy. -/
def absTests (r : JRecord) : List TestRow :=
  if truthyGet r "LBDNENO" then
    [⟨"Absolute Neutrophil Count", r.lookupVal "LBDNENO", "10^3/mcL", "1.8-7.0"⟩,
     ⟨"Absolute Lymphocyte Count", r.lookupVal "LBDLYMNO", "10^3/mcL", "1.0-4.8"⟩]
  else []

/-- The full `tests` list the template draws, in order. -/
def tests (r : JRecord) : List TestRow :=
  baseTests r ++ diffTests r ++ absTests r

/-! ## Helper lemmas about sorting and interpolation -/

theorem sortQ_sorted (xs : List ℚ) : (sortQ xs).Sorted (· ≤ ·) :=
  List.sorted_insertionSort (· ≤ ·) xs

theorem sortQ_length (xs : List ℚ) : (sortQ xs).length = xs.length :=
  List.length_insertionSort (· ≤ ·) xs

theorem sorted_getD_mono {s : List ℚ} (hs : s.Sorted (· ≤ ·)) {i j : ℕ}
    (hij : i ≤ j) (hj : j < s.length) : s.getD i 0 ≤ s.getD j 0 := by
  have hi : i < s.length := lt_of_le_of_lt hij hj
  rw [List.getD_eq_getElem s 0 hi, List.getD_eq_getElem s 0 hj]
  rcases lt_or_eq_of_le hij with h | h
  · have := hs.rel_get_of_lt (a := ⟨i, hi⟩) (b := ⟨j, hj⟩) h
    simpa [List.get_eq_getElem] using this
  · subst h; exact le_refl _

theorem floor_index_cast {h : ℚ} (h0 : 0 ≤ h) : ((⌊h⌋.toNat : ℕ) : ℚ) = (⌊h⌋ : ℚ) := by
  exact_mod_cast congrArg (fun z : ℤ => (z : ℚ)) (Int.toNat_of_nonneg (Int.floor_nonneg.mpr h0))

theorem ceil_index_lt {s : List ℚ} {h : ℚ} (hne : s ≠ [])
    (_h0 : 0 ≤ h) (hub : h ≤ (s.length : ℚ) - 1) : ⌈h⌉.toNat < s.length := by
  have hn : 1 ≤ s.length := List.length_pos.mpr hne
  have h1 : ⌈h⌉ ≤ (s.length : ℤ) - 1 := by
    apply Int.ceil_le.mpr
    push_cast
    exact hub
  omega

theorem floor_index_lt {s : List ℚ} {h : ℚ} (hne : s ≠ [])
    (h0 : 0 ≤ h) (hub : h ≤ (s.length : ℚ) - 1) : ⌊h⌋.toNat < s.length :=
  lt_of_le_of_lt (Int.toNat_le_toNat (Int.floor_le_ceil h)) (ceil_index_lt hne h0 hub)

theorem interpAt_lower {s : List ℚ} (hs : s.Sorted (· ≤ ·)) (hne : s ≠ [])
    {h : ℚ} (h0 : 0 ≤ h) (hub : h ≤ (s.length : ℚ) - 1) :
    s.getD ⌊h⌋.toNat 0 ≤ interpAt s h := by
  have hab : s.getD ⌊h⌋.toNat 0 ≤ s.getD ⌈h⌉.toNat 0 :=
    sorted_getD_mono hs (Int.toNat_le_toNat (Int.floor_le_ceil h)) (ceil_index_lt hne h0 hub)
  have hw0 : 0 ≤ h - ((⌊h⌋.toNat : ℕ) : ℚ) := by
    rw [floor_index_cast h0]
    exact sub_nonneg.mpr (Int.floor_le h)
  show s.getD ⌊h⌋.toNat 0 ≤
    s.getD ⌊h⌋.toNat 0 + (h - ((⌊h⌋.toNat : ℕ) : ℚ)) * (s.getD ⌈h⌉.toNat 0 - s.getD ⌊h⌋.toNat 0)
  nlinarith [mul_nonneg hw0 (sub_nonneg.mpr hab)]

theorem interpAt_upper {s : List ℚ} (hs : s.Sorted (· ≤ ·)) (hne : s ≠ [])
    {h : ℚ} (h0 : 0 ≤ h) (hub : h ≤ (s.length : ℚ) - 1) :
    interpAt s h ≤ s.getD ⌈h⌉.toNat 0 := by
  have hab : s.getD ⌊h⌋.toNat 0 ≤ s.getD ⌈h⌉.toNat 0 :=
    sorted_getD_mono hs (Int.toNat_le_toNat (Int.floor_le_ceil h)) (ceil_index_lt hne h0 hub)
  have hw1 : h - ((⌊h⌋.toNat : ℕ) : ℚ) ≤ 1 := by
    rw [floor_index_cast h0]
    have := Int.lt_floor_add_one h
    linarith
  show s.getD ⌊h⌋.toNat 0 + (h - ((⌊h⌋.toNat : ℕ) : ℚ)) *
      (s.getD ⌈h⌉.toNat 0 - s.getD ⌊h⌋.toNat 0) ≤ s.getD ⌈h⌉.toNat 0
  nlinarith [mul_le_mul_of_nonneg_right hw1 (sub_nonneg.mpr hab)]

theorem interpAt_mono {s : List ℚ} (hs : s.Sorted (· ≤ ·)) (hne : s ≠ [])
    {h₁ h₂ : ℚ} (h0 : 0 ≤ h₁) (h12 : h₁ ≤ h₂) (hub : h₂ ≤ (s.length : ℚ) - 1) :
    interpAt s h₁ ≤ interpAt s h₂ := by
  have h0' : 0 ≤ h₂ := le_trans h0 h12
  have hub' : h₁ ≤ (s.length : ℚ) - 1 := le_trans h12 hub
  rcases le_or_lt ⌈h₁⌉ ⌊h₂⌋ with hc | hc
  · calc interpAt s h₁ ≤ s.getD ⌈h₁⌉.toNat 0 := interpAt_upper hs hne h0 hub'
      _ ≤ s.getD ⌊h₂⌋.toNat 0 :=
        sorted_getD_mono hs (Int.toNat_le_toNat hc) (floor_index_lt hne h0' hub)
      _ ≤ interpAt s h₂ := interpAt_lower hs hne h0' hub
  · have hfl : ⌊h₁⌋ = ⌊h₂⌋ := by
      have hle : ⌊h₁⌋ ≤ ⌊h₂⌋ := Int.floor_le_floor h12
      have := Int.ceil_le_floor_add_one h₁
      omega
    have hceil : ⌈h₁⌉.toNat ≤ ⌈h₂⌉.toNat := Int.toNat_le_toNat (Int.ceil_le_ceil h12)
    have hhi2 : ⌈h₂⌉.toNat < s.length := ceil_index_lt hne h0' hub
    have hlohi1 : ⌊h₁⌋.toNat ≤ ⌈h₁⌉.toNat := Int.toNat_le_toNat (Int.floor_le_ceil h₁)
    have hhi1 : ⌈h₁⌉.toNat < s.length := lt_of_le_of_lt hceil hhi2
    have hb : s.getD ⌈h₁⌉.toNat 0 ≤ s.getD ⌈h₂⌉.toNat 0 :=
      sorted_getD_mono hs hceil hhi2
    have ha1 : s.getD ⌊h₁⌋.toNat 0 ≤ s.getD ⌈h₁⌉.toNat 0 :=
      sorted_getD_mono hs hlohi1 hhi1
    have hw0 : 0 ≤ h₁ - ((⌊h₁⌋.toNat : ℕ) : ℚ) := by
      rw [floor_index_cast h0]
      exact sub_nonneg.mpr (Int.floor_le h₁)
    have hw2 : 0 ≤ h₂ - ((⌊h₂⌋.toNat : ℕ) : ℚ) := by
      rw [floor_index_cast h0']
      exact sub_nonneg.mpr (Int.floor_le h₂)
    show s.getD ⌊h₁⌋.toNat 0 + (h₁ - ((⌊h₁⌋.toNat : ℕ) : ℚ)) *
        (s.getD ⌈h₁⌉.toNat 0 - s.getD ⌊h₁⌋.toNat 0) ≤
      s.getD ⌊h₂⌋.toNat 0 + (h₂ - ((⌊h₂⌋.toNat : ℕ) : ℚ)) *
        (s.getD ⌈h₂⌉.toNat 0 - s.getD ⌊h₂⌋.toNat 0)
    rw [← hfl]
    have hmul : (h₁ - ((⌊h₁⌋.toNat : ℕ) : ℚ)) * (s.getD ⌈h₁⌉.toNat 0 - s.getD ⌊h₁⌋.toNat 0) ≤
        (h₂ - ((⌊h₁⌋.toNat : ℕ) : ℚ)) * (s.getD ⌈h₂⌉.toNat 0 - s.getD ⌊h₁⌋.toNat 0) := by
      apply mul_le_mul (by linarith) (by linarith) (by linarith) ?h0b
      rw [← hfl] at hw2
      linarith
    linarith

theorem quantile_mono {xs : List ℚ} (hne : xs ≠ []) {q₁ q₂ : ℚ}
    (hq0 : 0 ≤ q₁) (hq : q₁ ≤ q₂) (hq1 : q₂ ≤ 1) :
    quantile xs q₁ ≤ quantile xs q₂ := by
  have hs := sortQ_sorted xs
  have hlen := sortQ_length xs
  have hne' : sortQ xs ≠ [] := by
    intro habs
    apply hne
    have := congrArg List.length habs
    rw [hlen] at this
    exact List.length_eq_zero.mp this
  have hn : 1 ≤ xs.length := List.length_pos.mpr hne
  have hnn : (0 : ℚ) ≤ (xs.length : ℚ) - 1 := by
    have : (1 : ℚ) ≤ (xs.length : ℚ) := by exact_mod_cast hn
    linarith
  unfold quantile
  apply interpAt_mono hs hne'
  · exact mul_nonneg hq0 hnn
  · exact mul_le_mul_of_nonneg_right hq hnn
  · rw [hlen]
    calc q₂ * ((xs.length : ℚ) - 1) ≤ 1 * ((xs.length : ℚ) - 1) :=
          mul_le_mul_of_nonneg_right hq1 hnn
      _ = (xs.length : ℚ) - 1 := one_mul _

/-! ## Helper lemmas about the reporter -/

theorem rangeRowOf_eq_some {t : Table} {var name : String} {row : RangeRow}
    (h : rangeRowOf t var name = some row) :
    ∃ c, t.findCol var = some c ∧ dropna c.cells ≠ [] ∧
      row = ⟨name, quantile (dropna c.cells) (25/1000), quantile (dropna c.cells) (25/100),
        quantile (dropna c.cells) (50/100), quantile (dropna c.cells) (75/100),
        quantile (dropna c.cells) (975/1000)⟩ := by
  unfold rangeRowOf at h
  cases hfc : t.findCol var with
  | none => rw [hfc] at h; simp at h
  | some c =>
    rw [hfc] at h
    by_cases hlen : (dropna c.cells).length = 0
    · simp only [hlen, if_pos rfl] at h
      exact absurd h (by simp)
    · simp only [if_neg hlen] at h
      refine ⟨c, rfl, fun habs => hlen (by rw [habs]; rfl), ?_⟩
      exact (Option.some_injective _ h).symm

theorem rangeRowOf_mem_report {t : Table} {var name : String} {c : Col}
    (hmem : (var, name) ∈ nhanes_to_name) (hfc : t.findCol var = some c)
    (hne : dropna c.cells ≠ []) :
    (⟨name, quantile (dropna c.cells) (25/1000), quantile (dropna c.cells) (25/100),
      quantile (dropna c.cells) (50/100), quantile (dropna c.cells) (75/100),
      quantile (dropna c.cells) (975/1000)⟩ : RangeRow) ∈ show_reference_ranges t := by
  apply List.mem_filterMap.mpr
  refine ⟨(var, name), hmem, ?_⟩
  have hlen : ¬(dropna c.cells).length = 0 := fun h0 => hne (List.length_eq_zero.mp h0)
  simp only [rangeRowOf, hfc, if_neg hlen]

/-! ## Concrete data for the spec's scenarios -/

/-- The scenario column `LBXHGB = [12.0, 13.0, 14.0, 15.0, 16.0]`. -/
def hgbCells : List Cell :=
  [Cell.num 12, Cell.num 13, Cell.num 14, Cell.num 15, Cell.num 16]

def hgbList : List ℚ := [12, 13, 14, 15, 16]

/-- A one-column table holding the scenario column. -/
def tblHGB : Table := ⟨[⟨"LBXHGB", hgbCells⟩]⟩

theorem dropna_hgbCells : dropna hgbCells = hgbList := rfl

theorem quantile_hgb_p025 : quantile hgbList (25/1000) = 121/10 := by
  show quantile [12, 13, 14, 15, 16] (25/1000) = 121/10
  rw [quantile, show sortQ [12, 13, 14, 15, 16] = [12, 13, 14, 15, 16] from rfl]
  rw [show (25/1000 : ℚ) * ((([12, 13, 14, 15, 16] : List ℚ).length : ℚ) - 1) = 1/10 by
    norm_num]
  rw [interpAt]
  rw [show ⌊(1 : ℚ)/10⌋ = 0 by rw [Int.floor_eq_iff] ; norm_num]
  rw [show ⌈(1 : ℚ)/10⌉ = 1 by rw [Int.ceil_eq_iff] ; norm_num]
  rw [show Int.toNat 0 = 0 from rfl, show Int.toNat 1 = 1 from rfl]
  rw [show List.getD ([12, 13, 14, 15, 16] : List ℚ) 0 0 = 12 from rfl,
      show List.getD ([12, 13, 14, 15, 16] : List ℚ) 1 0 = 13 from rfl]
  norm_num

theorem quantile_hgb_p25 : quantile hgbList (25/100) = 13 := by
  show quantile [12, 13, 14, 15, 16] (25/100) = 13
  rw [quantile, show sortQ [12, 13, 14, 15, 16] = [12, 13, 14, 15, 16] from rfl]
  rw [show (25/100 : ℚ) * ((([12, 13, 14, 15, 16] : List ℚ).length : ℚ) - 1) = 1 by
    norm_num]
  rw [interpAt]
  rw [show ⌊(1 : ℚ)⌋ = 1 from Int.floor_one, show ⌈(1 : ℚ)⌉ = 1 from Int.ceil_one]
  rw [show Int.toNat 1 = 1 from rfl]
  rw [show List.getD ([12, 13, 14, 15, 16] : List ℚ) 1 0 = 13 from rfl]
  norm_num

theorem quantile_hgb_p50 : quantile hgbList (50/100) = 14 := by
  show quantile [12, 13, 14, 15, 16] (50/100) = 14
  rw [quantile, show sortQ [12, 13, 14, 15, 16] = [12, 13, 14, 15, 16] from rfl]
  rw [show (50/100 : ℚ) * ((([12, 13, 14, 15, 16] : List ℚ).length : ℚ) - 1) = 2 by
    norm_num]
  rw [interpAt]
  rw [show ⌊(2 : ℚ)⌋ = 2 by rw [Int.floor_eq_iff] ; norm_num,
      show ⌈(2 : ℚ)⌉ = 2 by rw [Int.ceil_eq_iff] ; norm_num]
  rw [show Int.toNat 2 = 2 from rfl]
  rw [show List.getD ([12, 13, 14, 15, 16] : List ℚ) 2 0 = 14 from rfl]
  norm_num

theorem quantile_hgb_p75 : quantile hgbList (75/100) = 15 := by
  show quantile [12, 13, 14, 15, 16] (75/100) = 15
  rw [quantile, show sortQ [12, 13, 14, 15, 16] = [12, 13, 14, 15, 16] from rfl]
  rw [show (75/100 : ℚ) * ((([12, 13, 14, 15, 16] : List ℚ).length : ℚ) - 1) = 3 by
    norm_num]
  rw [interpAt]
  rw [show ⌊(3 : ℚ)⌋ = 3 by rw [Int.floor_eq_iff] ; norm_num,
      show ⌈(3 : ℚ)⌉ = 3 by rw [Int.ceil_eq_iff] ; norm_num]
  rw [show Int.toNat 3 = 3 from rfl]
  rw [show List.getD ([12, 13, 14, 15, 16] : List ℚ) 3 0 = 15 from rfl]
  norm_num

theorem quantile_hgb_p975 : quantile hgbList (975/1000) = 159/10 := by
  show quantile [12, 13, 14, 15, 16] (975/1000) = 159/10
  rw [quantile, show sortQ [12, 13, 14, 15, 16] = [12, 13, 14, 15, 16] from rfl]
  rw [show (975/1000 : ℚ) * ((([12, 13, 14, 15, 16] : List ℚ).length : ℚ) - 1) = 39/10 by
    norm_num]
  rw [interpAt]
  rw [show ⌊(39 : ℚ)/10⌋ = 3 by rw [Int.floor_eq_iff] ; norm_num]
  rw [show ⌈(39 : ℚ)/10⌉ = 4 by rw [Int.ceil_eq_iff] ; norm_num]
  rw [show Int.toNat 3 = 3 from rfl, show Int.toNat 4 = 4 from rfl]
  rw [show List.getD ([12, 13, 14, 15, 16] : List ℚ) 3 0 = 15 from rfl,
      show List.getD ([12, 13, 14, 15, 16] : List ℚ) 4 0 = 16 from rfl]
  norm_num

theorem show_reference_ranges_tblHGB :
    show_reference_ranges tblHGB =
      [⟨"Hemoglobin (g/dL)", 121/10, 13, 14, 15, 159/10⟩] := by
  have h0 : show_reference_ranges tblHGB =
      [⟨"Hemoglobin (g/dL)", quantile hgbList (25/1000), quantile hgbList (25/100),
        quantile hgbList (50/100), quantile hgbList (75/100),
        quantile hgbList (975/1000)⟩] := rfl
  rw [h0, quantile_hgb_p025, quantile_hgb_p25, quantile_hgb_p50, quantile_hgb_p75,
    quantile_hgb_p975]

/-! ## C1 -/

/-- C1: for every mapped numeric column with at least one non-missing value,
the percentile report contains the row of this column's five quantiles
`{0.025, 0.25, 0.5, 0.75, 0.975}` as computed by `quantile` — sort, take the
fractional index `q·(n−1)`, and interpolate linearly between the order
statistics at its floor and its ceiling; and on the scenario column
`LBXHGB = [12, 13, 14, 15, 16]` the report yields exactly
median = 14, p25 = 13, p75 = 15 (with p2.5 = 12.1 and p97.5 = 15.9). -/
theorem reporter_computes_linear_interpolation_quantiles :
    (∀ (t : Table) (var name : String) (c : Col),
      (var, name) ∈ nhanes_to_name → t.findCol var = some c → dropna c.cells ≠ [] →
      (⟨name, quantile (dropna c.cells) (25/1000), quantile (dropna c.cells) (25/100),
        quantile (dropna c.cells) (50/100), quantile (dropna c.cells) (75/100),
        quantile (dropna c.cells) (975/1000)⟩ : RangeRow) ∈ show_reference_ranges t) ∧
    show_reference_ranges tblHGB =
      [⟨"Hemoglobin (g/dL)", 121/10, 13, 14, 15, 159/10⟩] :=
  ⟨fun _ _ _ _ hmem hfc hne => rangeRowOf_mem_report hmem hfc hne,
   show_reference_ranges_tblHGB⟩

/-- Witness for C1: the general half applied to the concrete scenario
table. -/
theorem reporter_computes_linear_interpolation_quantiles_witness :
    (("LBXHGB", "Hemoglobin (g/dL)") ∈ nhanes_to_name ∧
      tblHGB.findCol "LBXHGB" = some ⟨"LBXHGB", hgbCells⟩ ∧
      dropna hgbCells ≠ []) ∧
    (⟨"Hemoglobin (g/dL)", quantile (dropna hgbCells) (25/1000),
      quantile (dropna hgbCells) (25/100), quantile (dropna hgbCells) (50/100),
      quantile (dropna hgbCells) (75/100),
      quantile (dropna hgbCells) (975/1000)⟩ : RangeRow) ∈ show_reference_ranges tblHGB :=
  ⟨⟨by decide, rfl, by decide⟩,
   reporter_computes_linear_interpolation_quantiles.1 tblHGB "LBXHGB" "Hemoglobin (g/dL)"
     ⟨"LBXHGB", hgbCells⟩ (by decide) rfl (by decide)⟩

/-! ## C4 -/

/-- C4: every row of the percentile report is monotonically non-decreasing:
p2.5 ≤ p25 ≤ median ≤ p75 ≤ p97.5, for any non-empty numeric column. -/
theorem report_quantiles_monotone :
    ∀ (t : Table) (row : RangeRow), row ∈ show_reference_ranges t →
      row.p025 ≤ row.p25 ∧ row.p25 ≤ row.p50 ∧ row.p50 ≤ row.p75 ∧ row.p75 ≤ row.p975 := by
  intro t row hrow
  obtain ⟨⟨var, name⟩, _hmem, hrr⟩ := List.mem_filterMap.mp hrow
  obtain ⟨c, _hfc, hne, rfl⟩ := rangeRowOf_eq_some hrr
  refine ⟨?_, ?_, ?_, ?_⟩ <;>
    exact quantile_mono hne (by norm_num) (by norm_num) (by norm_num)

/-- Witness for C4: the scenario row of `tblHGB`, with its monotone
quantiles evaluated. -/
theorem report_quantiles_monotone_witness :
    ((⟨"Hemoglobin (g/dL)", 121/10, 13, 14, 15, 159/10⟩ : RangeRow) ∈
      show_reference_ranges tblHGB) ∧
    ((121/10 : ℚ) ≤ 13 ∧ (13 : ℚ) ≤ 14 ∧ (14 : ℚ) ≤ 15 ∧ (15 : ℚ) ≤ 159/10) := by
  have hmem : (⟨"Hemoglobin (g/dL)", 121/10, 13, 14, 15, 159/10⟩ : RangeRow) ∈
      show_reference_ranges tblHGB := by
    rw [show_reference_ranges_tblHGB]
    exact List.mem_singleton.mpr rfl
  exact ⟨hmem, report_quantiles_monotone tblHGB _ hmem⟩

/-! ## Helper lemmas about the exports -/

theorem getD_map_missing (f : Cell → Cell) (hf : f Cell.missing = Cell.missing)
    (l : List Cell) (i : ℕ) :
    (l.map f).getD i Cell.missing = f (l.getD i Cell.missing) := by
  by_cases h : i < l.length
  · rw [List.getD_eq_getElem _ _ (by simpa using h), List.getD_eq_getElem _ _ h,
      List.getElem_map]
  · rw [List.getD_eq_default _ _ (by simpa using le_of_not_lt h),
      List.getD_eq_default _ _ (le_of_not_lt h), hf]

theorem roundTable_nrows (t : Table) : t.roundTable.nrows = t.nrows := by
  unfold Table.roundTable Table.nrows
  cases t.cols with
  | nil => rfl
  | cons c cs => simp

theorem export_csv_rows_length (t : Table) : (export_csv t).rows.length = t.nrows := by
  simp [export_csv]

theorem export_json_length (t : Table) : (export_json t).length = t.nrows := by
  simp [export_json, to_json_records, roundTable_nrows]

theorem export_csv_rows_getD (t : Table) {i : ℕ} (hi : i < t.nrows) :
    (export_csv t).rows.getD i [] = (t.rowCells i).map csvFieldOfCell := by
  unfold export_csv
  rw [List.getD_eq_getElem _ _ (by simpa using hi), List.getElem_map, List.getElem_range]

theorem export_json_getD (t : Table) {i : ℕ} (hi : i < t.nrows) :
    (export_json t).getD i [] =
      t.cols.map fun c => (c.name, jvalOfCell (roundCell (c.cells.getD i Cell.missing))) := by
  unfold export_json to_json_records
  rw [List.getD_eq_getElem _ _ (by simpa [roundTable_nrows] using hi), List.getElem_map,
    List.getElem_range]
  unfold Table.roundTable
  rw [List.map_map]
  apply List.map_congr_left
  intro c _hc
  simp only [Function.comp]
  rw [getD_map_missing roundCell rfl]

/-! ## C2 -/

/-- C2: both exports have exactly `nrows` data rows, and the `i`-th CSV line
and the `i`-th JSON record are rendered from the `i`-th logical row of the
source table (cell `i` of every column, in column order), so both
serializations present the rows in the source order. -/
theorem exports_preserve_row_count_and_order :
    ∀ t : Table,
      (export_csv t).rows.length = t.nrows ∧
      (export_json t).length = t.nrows ∧
      ∀ i, i < t.nrows →
        (export_csv t).rows.getD i [] = (t.rowCells i).map csvFieldOfCell ∧
        (export_json t).getD i [] =
          t.cols.map fun c => (c.name, jvalOfCell (roundCell (c.cells.getD i Cell.missing))) :=
  fun t => ⟨export_csv_rows_length t, export_json_length t,
    fun _i hi => ⟨export_csv_rows_getD t hi, export_json_getD t hi⟩⟩

/-- Witness for C2: the scenario table, with its row count and first row
evaluated. -/
theorem exports_preserve_row_count_and_order_witness :
    (export_csv tblHGB).rows.length = tblHGB.nrows ∧
    (export_json tblHGB).length = tblHGB.nrows ∧
    (0 < tblHGB.nrows ∧
      (export_csv tblHGB).rows.getD 0 [] = (tblHGB.rowCells 0).map csvFieldOfCell) := by
  obtain ⟨h1, h2, h3⟩ := exports_preserve_row_count_and_order tblHGB
  exact ⟨h1, h2, by decide, (h3 0 (by decide)).1⟩

/-! ## C3 -/

theorem round4_idem (x : ℚ) : round4 (round4 x) = round4 x := by
  unfold round4
  rw [div_mul_cancel₀ _ (by norm_num : (10000 : ℚ) ≠ 0), round_intCast]

theorem parse_csv_num (x : ℚ) :
    parseCsvField (csvFieldOfCell (Cell.num x)) = Cell.num (round4 x) := rfl

/-- C3: both exports round floats to 4 decimal places; re-parsing a CSV
numeric field yields exactly the 4-decimal rounded value (so re-rounding it
changes nothing, by the idempotence in the first conjunct), and the JSON
export stores that same rounded value — the two exports agree on every
float cell after rounding. -/
theorem exports_round_trip_4dp :
    (∀ x : ℚ, round4 (round4 x) = round4 x) ∧
    (∀ (t : Table) (i j : ℕ) (x : ℚ), i < t.nrows → j < t.cols.length →
      (t.cols.getD j ⟨"", []⟩).cells.getD i Cell.missing = Cell.num x →
      parseCsvField (((export_csv t).rows.getD i []).getD j CsvField.emptyF) =
        Cell.num (round4 x) ∧
      (((export_json t).getD i []).getD j ("", JVal.jnull)).2 = JVal.jnum (round4 x)) := by
  refine ⟨round4_idem, ?_⟩
  intro t i j x hi hj hcell
  rw [List.getD_eq_getElem _ _ hj] at hcell
  constructor
  · rw [export_csv_rows_getD t hi]
    have hlen : j < (t.rowCells i).length := by simpa [Table.rowCells] using hj
    rw [List.getD_eq_getElem _ _ (by simpa using hlen), List.getElem_map]
    simp only [Table.rowCells, List.getElem_map]
    rw [hcell]
    exact parse_csv_num x
  · rw [export_json_getD t hi]
    rw [List.getD_eq_getElem _ _ (by simpa using hj), List.getElem_map, hcell]
    rfl

/-- Witness for C3: the round-trip equalities evaluated on the scenario
table at row 0, column 0 (value 12, already 4-decimal stable). -/
theorem exports_round_trip_4dp_witness :
    ((0 < tblHGB.nrows ∧ 0 < tblHGB.cols.length ∧
      (tblHGB.cols.getD 0 ⟨"", []⟩).cells.getD 0 Cell.missing = Cell.num 12) ∧
      parseCsvField (((export_csv tblHGB).rows.getD 0 []).getD 0 CsvField.emptyF) =
        Cell.num (round4 12) ∧
      (((export_json tblHGB).getD 0 []).getD 0 ("", JVal.jnull)).2 =
        JVal.jnum (round4 12)) := by
  refine ⟨⟨by decide, by decide, rfl⟩, ?_⟩
  exact exports_round_trip_4dp.2 tblHGB 0 0 12 (by decide) (by decide) rfl

/-! ## C5 -/

/-- The display labels of the fixed mapping identify their variable: no two
mapped variables share a label. -/
theorem nhanes_labels_injective :
    ∀ p ∈ nhanes_to_name, ∀ q ∈ nhanes_to_name, p.2 = q.2 → p.1 = q.1 := by decide

/-- The spec scenario: a one-row table whose only column `LBXNRBC` is
entirely missing. -/
def tblNRBC : Table := ⟨[⟨"LBXNRBC", [Cell.missing]⟩]⟩

/-- C5: a mapped column that is absent from the table, or all of whose
values are missing, contributes no row to the percentile report (no error is
modelled — the loop just skips it), while the CSV and JSON exports still
carry the column, with an empty field resp. `null` in every row; on the
scenario table (one row, `LBXNRBC` all-missing) the report is empty. -/
theorem missing_columns_skipped_but_exported :
    (∀ (t : Table) (var name : String),
      (var, name) ∈ nhanes_to_name →
      (t.findCol var = none ∨ ∃ c, t.findCol var = some c ∧ dropna c.cells = []) →
      ∀ row ∈ show_reference_ranges t, row.label ≠ name) ∧
    (∀ (t : Table) (j : ℕ) (hj : j < t.cols.length),
      (∀ cell ∈ t.cols[j].cells, cell = Cell.missing) →
      (export_csv t).header.getD j "" = t.cols[j].name ∧
      ∀ i, i < t.nrows →
        ((export_csv t).rows.getD i []).getD j (CsvField.strF "?") = CsvField.emptyF ∧
        ((export_json t).getD i []).getD j ("", JVal.jstr "?") =
          (t.cols[j].name, JVal.jnull)) ∧
    show_reference_ranges tblNRBC = [] := by
  refine ⟨?_, ?_, rfl⟩
  · intro t var name hmem hskip row hrow hlabel
    obtain ⟨⟨var', name'⟩, hmem', hrr⟩ := List.mem_filterMap.mp hrow
    obtain ⟨c', hfc', hne', hroweq⟩ := rangeRowOf_eq_some hrr
    have hname : name' = name := by rw [hroweq] at hlabel; exact hlabel
    have hvar : var' = var :=
      nhanes_labels_injective (var', name') hmem' (var, name) hmem (by simpa using hname)
    rw [hvar] at hfc'
    rcases hskip with hnone | ⟨c, hc, hd⟩
    · rw [hnone] at hfc'; cases hfc'
    · rw [hc] at hfc'
      have : c = c' := Option.some_injective _ hfc'
      exact hne' (this ▸ hd)
  · intro t j hj hmiss
    have hcell : ∀ i, t.cols[j].cells.getD i Cell.missing = Cell.missing := by
      intro i
      by_cases h : i < t.cols[j].cells.length
      · rw [List.getD_eq_getElem _ _ h]
        exact hmiss _ (List.getElem_mem h)
      · exact List.getD_eq_default _ _ (le_of_not_lt h)
    refine ⟨?_, ?_⟩
    · unfold export_csv
      rw [List.getD_eq_getElem _ _ (by simpa using hj), List.getElem_map]
    · intro i hi
      constructor
      · rw [export_csv_rows_getD t hi]
        have hlen : j < (t.rowCells i).length := by simpa [Table.rowCells] using hj
        rw [List.getD_eq_getElem _ _ (by simpa using hlen), List.getElem_map]
        simp only [Table.rowCells, List.getElem_map]
        rw [hcell i]
        rfl
      · rw [export_json_getD t hi]
        rw [List.getD_eq_getElem _ _ (by simpa using hj), List.getElem_map, hcell i]
        rfl

/-- Witness for C5: on the scenario table the `NRBC (/100 WBC)` label is
absent from the report, and both exports carry the all-missing column as an
empty field resp. `null`. -/
theorem missing_columns_skipped_but_exported_witness :
    ((("LBXNRBC", "NRBC (/100 WBC)") ∈ nhanes_to_name ∧ 0 < tblNRBC.cols.length ∧
      0 < tblNRBC.nrows) ∧
      (∀ row ∈ show_reference_ranges tblNRBC, row.label ≠ "NRBC (/100 WBC)") ∧
      ((export_csv tblNRBC).rows.getD 0 []).getD 0 (CsvField.strF "?") =
        CsvField.emptyF ∧
      ((export_json tblNRBC).getD 0 []).getD 0 ("", JVal.jstr "?") =
        ("LBXNRBC", JVal.jnull)) := by
  refine ⟨⟨by decide, by decide, by decide⟩, ?_, ?_, ?_⟩
  · exact missing_columns_skipped_but_exported.1 tblNRBC "LBXNRBC" "NRBC (/100 WBC)"
      (by decide)
      (Or.inr ⟨⟨"LBXNRBC", [Cell.missing]⟩, rfl, rfl⟩)
  · exact ((missing_columns_skipped_but_exported.2.1 tblNRBC 0 (by decide)
      (by decide)).2 0 (by decide)).1
  · exact ((missing_columns_skipped_but_exported.2.1 tblNRBC 0 (by decide)
      (by decide)).2 0 (by decide)).2

/-! ## C6 -/

/-- C6: the loader tries the two parsing strategies in a fixed order — when
the primary (`pd.read_sas`) parses, its table is returned and the fallback
is never consulted; when the primary fails, the secondary
(`pyreadstat.read_xpt`) decides the outcome; and the final fatal format
failure is surfaced exactly when the primary failed and the installed
secondary failed as well. -/
theorem loader_two_strategy_fallback :
    (∀ (df : Table) (b : Bool) (r : Option Table),
      load_xpt ⟨true, some df, b, r⟩ = Except.ok df) ∧
    (∀ df : Table, load_xpt ⟨true, none, true, some df⟩ = Except.ok df) ∧
    (∀ env : LoadEnv, env.fileExists = true →
      (load_xpt env = Except.error LoadFailure.formatError ↔
        env.pandasResult = none ∧ env.pyreadstatInstalled = true ∧
          env.pyreadstatResult = none)) := by
  refine ⟨fun df b r => rfl, fun df => rfl, ?_⟩
  intro env hex
  obtain ⟨fe, pr, pi, pyr⟩ := env
  cases hex
  unfold load_xpt
  cases pr with
  | some df => simp
  | none =>
    cases pi with
    | false => simp
    | true =>
      cases pyr with
      | some df => simp
      | none => simp

/-- Witness for C6: the both-strategies-fail environment surfaces the
format failure. -/
theorem loader_two_strategy_fallback_witness :
    (⟨true, none, true, none⟩ : LoadEnv).fileExists = true ∧
    load_xpt ⟨true, none, true, none⟩ = Except.error LoadFailure.formatError :=
  ⟨rfl, (loader_two_strategy_fallback.2.2 ⟨true, none, true, none⟩ rfl).mpr
    ⟨rfl, rfl, rfl⟩⟩

/-! ## C7 -/

/-- C7: when the input path does not exist the process exits with code 1 and
its diagnostics include the download hint; when the load succeeds the
straight-line run exits with code 0. -/
theorem exit_code_contract :
    (∀ env : LoadEnv, env.fileExists = false →
      (runMain env).exitCode = 1 ∧ downloadHint ∈ (runMain env).diagnostics) ∧
    (∀ (env : LoadEnv) (df : Table), load_xpt env = Except.ok df →
      runMain env = ⟨0, []⟩) := by
  constructor
  · intro env hex
    have hload : load_xpt env = Except.error LoadFailure.notFound := by
      unfold load_xpt
      rw [hex]
      rfl
    unfold runMain
    rw [hload]
    exact ⟨rfl, by simp [downloadHint]⟩
  · intro env df hload
    unfold runMain
    rw [hload]

/-- Witness for C7: a missing-file environment exits 1 with the hint; a
successful environment exits 0. -/
theorem exit_code_contract_witness :
    ((⟨false, none, false, none⟩ : LoadEnv).fileExists = false ∧
      (runMain ⟨false, none, false, none⟩).exitCode = 1 ∧
      downloadHint ∈ (runMain ⟨false, none, false, none⟩).diagnostics) ∧
    (load_xpt ⟨true, some tblHGB, false, none⟩ = Except.ok tblHGB ∧
      runMain ⟨true, some tblHGB, false, none⟩ = ⟨0, []⟩) :=
  ⟨⟨rfl, exit_code_contract.1 ⟨false, none, false, none⟩ rfl⟩,
   ⟨rfl, exit_code_contract.2 ⟨true, some tblHGB, false, none⟩ tblHGB rfl⟩⟩

/-! ## C8 -/

/-- C8: the loaded table is never mutated — the pipeline of reporting and
exporting hands back the very table it was given (every column, every cell
and the row count unchanged), and the JSON rounding operates on the separate
copy `df.round(4)`, not on the table itself. -/
theorem table_never_mutated :
    ∀ df : Table,
      (run_pipeline df).2 = df ∧
      (run_pipeline df).2.cols = df.cols ∧
      (run_pipeline df).2.nrows = df.nrows ∧
      (run_pipeline df).1.2.2 = to_json_records df.roundTable :=
  fun _df => ⟨rfl, rfl, rfl, rfl⟩

/-! ## C9 -/

/-- A record whose `LBXHGB` is `null`: skipped by the selection loop. -/
def rIncomplete : JRecord :=
  [("LBXHGB", JVal.jnull), ("LBXWBCSI", JVal.jnum 7),
   ("LBXPLTSI", JVal.jnum 250), ("LBXRBCSI", JVal.jnum 5)]

/-- A record with all four mandatory fields present and non-zero. -/
def rComplete : JRecord :=
  [("LBXHGB", JVal.jnum 14), ("LBXWBCSI", JVal.jnum 7),
   ("LBXPLTSI", JVal.jnum 250), ("LBXRBCSI", JVal.jnum 5)]

theorem truthyGet_false {r : JRecord} {k : String}
    (h : r.lookupVal k = none ∨ r.lookupVal k = some JVal.jnull ∨
      r.lookupVal k = some (JVal.jnum 0)) : truthyGet r k = false := by
  unfold truthyGet
  rcases h with h | h | h <;> simp [h]

/-- C9: the PDF script selects the first record of the JSON array whose four
mandatory fields `LBXHGB`, `LBXWBCSI`, `LBXPLTSI`, `LBXRBCSI` are all
truthy; a record in which any of the four is absent, `null`, or exactly `0`
is not complete and is skipped; and when no record qualifies the script
exits with code 1. -/
theorem record_selection_loop :
    (∀ (data : List JRecord) (r : JRecord), selectRecord data = some r →
      isComplete r = true ∧
      ∃ pre post, data = pre ++ r :: post ∧ ∀ r' ∈ pre, isComplete r' = false) ∧
    (∀ (r : JRecord) (k : String), k ∈ mandatoryKeys →
      (r.lookupVal k = none ∨ r.lookupVal k = some JVal.jnull ∨
        r.lookupVal k = some (JVal.jnum 0)) → isComplete r = false) ∧
    (∀ data : List JRecord, selectRecord data = none → sampleSelectionExit data = 1) := by
  refine ⟨?_, ?_, ?_⟩
  · intro data
    induction data with
    | nil => intro r h; cases h
    | cons r₀ rs ih =>
      intro r h
      unfold selectRecord at h
      cases hc : isComplete r₀ with
      | true =>
        rw [hc] at h
        simp only [if_pos rfl] at h
        obtain rfl := Option.some_injective _ h.symm
        exact ⟨hc, [], rs, rfl, fun r' hr' => absurd hr' (List.not_mem_nil r')⟩
      | false =>
        rw [hc] at h
        simp only [if_neg Bool.false_ne_true] at h
        obtain ⟨hcr, pre, post, heq, hpre⟩ := ih r h
        refine ⟨hcr, r₀ :: pre, post, by rw [heq]; rfl, ?_⟩
        intro r' hr'
        rcases List.mem_cons.mp hr' with rfl | hr'
        · exact hc
        · exact hpre r' hr'
  · intro r k hk hval
    have hfalse : truthyGet r k = false := truthyGet_false hval
    fin_cases hk <;> simp_all [isComplete]
  · intro data h
    unfold sampleSelectionExit
    rw [h]

/-- Witness for C9: on a two-record array whose first record has a `null`
`LBXHGB`, the loop selects the second record. -/
theorem record_selection_loop_witness :
    selectRecord [rIncomplete, rComplete] = some rComplete ∧
    (isComplete rComplete = true ∧
      ∃ pre post, [rIncomplete, rComplete] = pre ++ rComplete :: post ∧
        ∀ r' ∈ pre, isComplete r' = false) := by
  have hsel : selectRecord [rIncomplete, rComplete] = some rComplete := rfl
  exact ⟨hsel, record_selection_loop.1 [rIncomplete, rComplete] rComplete hsel⟩

/-! ## C10 -/

/-- C10: for every selected record, the optional analytes are rendered with
`record.get(key, default)`: when the key is absent from the record the row
still appears, carrying the hard-coded default (42.0 for `LBXHCT`, 88.0 for
`LBXMCVSI`, 30.0 for `LBXMC`, 34.0 for `LBXMCHSI`, 13.0 for `LBXRDW`); in
particular a rendered value (42.0 on `rComplete`) need not occur anywhere in
the source record. -/
theorem pdf_hardcoded_defaults :
    (∀ r : JRecord,
      (r.lookupVal "LBXHCT" = none →
        ((tests r).find? fun row => row.name == "Hematocrit").map TestRow.value =
          some (some (JVal.jnum 42))) ∧
      (r.lookupVal "LBXMCVSI" = none →
        ((tests r).find? fun row => row.name == "Mean Corpuscular Volume").map
          TestRow.value = some (some (JVal.jnum 88))) ∧
      (r.lookupVal "LBXMC" = none →
        ((tests r).find? fun row => row.name == "Mean Corpuscular Hemoglobin").map
          TestRow.value = some (some (JVal.jnum 30))) ∧
      (r.lookupVal "LBXMCHSI" = none →
        ((tests r).find? fun row => row.name == "MCHC").map TestRow.value =
          some (some (JVal.jnum 34))) ∧
      (r.lookupVal "LBXRDW" = none →
        ((tests r).find? fun row => row.name == "Red Cell Distribution Width").map
          TestRow.value = some (some (JVal.jnum 13)))) ∧
    (((tests rComplete).find? fun row => row.name == "Hematocrit").map TestRow.value =
        some (some (JVal.jnum 42)) ∧
      ∀ p ∈ rComplete, p.2 ≠ JVal.jnum 42) := by
  constructor
  · intro r
    refine ⟨?_, ?_, ?_, ?_, ?_⟩ <;> intro h
    · rw [show ((tests r).find? fun row => row.name == "Hematocrit") =
        some ⟨"Hematocrit", some (r.getD "LBXHCT" (JVal.jnum 42)), "%", "38.0-50.0"⟩
        from rfl]
      simp [JRecord.getD, h]
    · rw [show ((tests r).find? fun row => row.name == "Mean Corpuscular Volume") =
        some ⟨"Mean Corpuscular Volume", some (r.getD "LBXMCVSI" (JVal.jnum 88)),
          "fL", "80-100"⟩ from rfl]
      simp [JRecord.getD, h]
    · rw [show ((tests r).find? fun row => row.name == "Mean Corpuscular Hemoglobin") =
        some ⟨"Mean Corpuscular Hemoglobin", some (r.getD "LBXMC" (JVal.jnum 30)),
          "pg", "27-33"⟩ from rfl]
      simp [JRecord.getD, h]
    · rw [show ((tests r).find? fun row => row.name == "MCHC") =
        some ⟨"MCHC", some (r.getD "LBXMCHSI" (JVal.jnum 34)), "g/dL", "32-36"⟩
        from rfl]
      simp [JRecord.getD, h]
    · rw [show ((tests r).find? fun row => row.name == "Red Cell Distribution Width") =
        some ⟨"Red Cell Distribution Width", some (r.getD "LBXRDW" (JVal.jnum 13)),
          "%", "11.5-14.5"⟩ from rfl]
      simp [JRecord.getD, h]
  · constructor
    · rw [show ((tests rComplete).find? fun row => row.name == "Hematocrit") =
        some ⟨"Hematocrit", some (rComplete.getD "LBXHCT" (JVal.jnum 42)), "%",
          "38.0-50.0"⟩ from rfl]
      rfl
    · decide

/-- Witness for C10: `rComplete` has no `LBXHCT` field, and its rendered
Hematocrit row carries the default 42. -/
theorem pdf_hardcoded_defaults_witness :
    rComplete.lookupVal "LBXHCT" = none ∧
    ((tests rComplete).find? fun row => row.name == "Hematocrit").map TestRow.value =
      some (some (JVal.jnum 42)) :=
  ⟨rfl, (pdf_hardcoded_defaults.1 rComplete).1 rfl⟩

end Clarion
